import Mathlib

/-!
Verification of the psevent process-event capture engine (Go sources
`psenvent.go` and the netlink connector file) against its design
specification.  The wire protocol, decode/dispatch path, control-frame
construction, the socket open/close paths and the engine's stop protocol are
shallowly embedded below; bytes are modelled as `Nat` values and all
multi-byte integers use the little-endian byte order fixed by the source
(`byteOrder = binary.LittleEndian`).
-/

set_option linter.unusedVariables false

namespace Psevent

/-! ## Byte-level codec primitives (encoding/binary, little-endian) -/

/-- Little-endian encoding of a 16-bit value, as `binary.Write` lays out a
`uint16`. -/
def u16le (n : Nat) : List Nat := [n % 256, n / 256 % 256]

/-- Little-endian encoding of a 32-bit value, as `binary.Write` lays out a
`uint32`. -/
def u32le (n : Nat) : List Nat :=
  [n % 256, n / 256 % 256, n / 65536 % 256, n / 16777216 % 256]

/-- Little-endian encoding of a 64-bit value (`uint64`). -/
def u64le (n : Nat) : List Nat := u32le (n % 4294967296) ++ u32le (n / 4294967296)

/-- Little-endian read of a 16-bit value from the first two bytes. -/
def le16 (b : List Nat) : Nat := b.getD 0 0 + 256 * b.getD 1 0

/-- Little-endian read of a 32-bit value from the first four bytes. -/
def le32 (b : List Nat) : Nat :=
  b.getD 0 0 + 256 * b.getD 1 0 + 65536 * b.getD 2 0 + 16777216 * b.getD 3 0

/-- Little-endian read of a 64-bit value from the first eight bytes. -/
def le64 (b : List Nat) : Nat := le32 b + 4294967296 * le32 (b.drop 4)

/-- Model of one `binary.Read(buf, byteOrder, x)` call on a `bytes.Buffer`
holding `b`, for a fixed-size destination of `n` bytes decoded by `d`.
On success the `n` bytes are consumed and decoded; if fewer than `n` bytes
remain, `io.ReadFull` drains the buffer and fails, and the destination is
left at its zero value `z` (the error itself is discarded by the callers in
`handleEvent`). -/
def binRead {α : Type} (n : Nat) (z : α) (d : List Nat → α) (b : List Nat) : α × List Nat :=
  if n ≤ b.length then (d (b.take n), b.drop n) else (z, [])

/-! ## Wire structures (linux/connector.h, linux/cn_proc.h, syscall) -/

/-- linux/connector.h `struct cb_id` (Go `cbId`). -/
@[ext]
structure cbId where
  Idx : Nat
  Val : Nat
deriving DecidableEq

/-- linux/connector.h `struct cb_msg` (Go `cnMsg`): 20 bytes on the wire. -/
@[ext]
structure cnMsg where
  Id : cbId
  Seq : Nat
  Ack : Nat
  Len : Nat
  Flags : Nat
deriving DecidableEq

/-- Zero value of `cnMsg`, as Go leaves it when `binary.Read` fails. -/
def cnMsgZero : cnMsg := { Id := { Idx := 0, Val := 0 }, Seq := 0, Ack := 0, Len := 0, Flags := 0 }

/-- linux/cn_proc.h `struct proc_event.:member:what,cpu,timestamp_ns` (Go
`procEventHeader`): 16 bytes on the wire. -/
@[ext]
structure procEventHeader where
  What : Nat
  Cpu : Nat
  Timestamp : Nat
deriving DecidableEq

/-- Zero value of `procEventHeader`. -/
def procEventHeaderZero : procEventHeader := { What := 0, Cpu := 0, Timestamp := 0 }

/-- Go `forkProcEvent`: 16 bytes on the wire. -/
@[ext]
structure forkProcEvent where
  ParentPid : Nat
  ParentTgid : Nat
  ChildPid : Nat
  ChildTgid : Nat
deriving DecidableEq

/-- Zero value of `forkProcEvent`. -/
def forkProcEventZero : forkProcEvent :=
  { ParentPid := 0, ParentTgid := 0, ChildPid := 0, ChildTgid := 0 }

/-- Go `execProcEvent`: 8 bytes on the wire. -/
@[ext]
structure execProcEvent where
  ProcessPid : Nat
  ProcessTgid : Nat
deriving DecidableEq

/-- Zero value of `execProcEvent`. -/
def execProcEventZero : execProcEvent := { ProcessPid := 0, ProcessTgid := 0 }

/-- Go `exitProcEvent`: 16 bytes on the wire. -/
@[ext]
structure exitProcEvent where
  ProcessPid : Nat
  ProcessTgid : Nat
  ExitCode : Nat
  ExitSignal : Nat
deriving DecidableEq

/-- Zero value of `exitProcEvent`. -/
def exitProcEventZero : exitProcEvent :=
  { ProcessPid := 0, ProcessTgid := 0, ExitCode := 0, ExitSignal := 0 }

/-- syscall.NlMsghdr: the 16-byte netlink transport envelope header.
The Go field `Type` is called `Typ` here (`Type` is reserved in Lean). -/
@[ext]
structure NlMsghdr where
  Len : Nat
  Typ : Nat
  Flags : Nat
  Seq : Nat
  Pid : Nat
deriving DecidableEq

/-! ## Constants from the source -/

/-- `PROC_EVENT_FORK = 0x00000001`. -/
def PROC_EVENT_FORK : Nat := 1

/-- `PROC_EVENT_EXEC = 0x00000002`. -/
def PROC_EVENT_EXEC : Nat := 2

/-- `PROC_EVENT_EXIT = 0x80000000`. -/
def PROC_EVENT_EXIT : Nat := 2147483648

/-- `_CN_IDX_PROC = 0x1` (the leading underscore of the Go name is dropped). -/
def CN_IDX_PROC : Nat := 1

/-- `_CN_VAL_PROC = 0x1`. -/
def CN_VAL_PROC : Nat := 1

/-- `_PROC_CN_MCAST_LISTEN = 1`. -/
def PROC_CN_MCAST_LISTEN : Nat := 1

/-- `_PROC_CN_MCAST_IGNORE = 2`. -/
def PROC_CN_MCAST_IGNORE : Nat := 2

/-- `syscall.NLMSG_HDRLEN = 16`. -/
def NLMSG_HDRLEN : Nat := 16

/-- `syscall.NLMSG_DONE = 0x3`. -/
def NLMSG_DONE : Nat := 3

/-! ## Decoders (field layouts of `binary.Read` on the structs above) -/

/-- Field-by-field little-endian decode of `cnMsg` from 20 bytes. -/
def decodeCnMsg (b : List Nat) : cnMsg :=
  { Id := { Idx := le32 b, Val := le32 (b.drop 4) }
    Seq := le32 (b.drop 8)
    Ack := le32 (b.drop 12)
    Len := le16 (b.drop 16)
    Flags := le16 (b.drop 18) }

/-- Field-by-field little-endian decode of `procEventHeader` from 16 bytes. -/
def decodeProcEventHeader (b : List Nat) : procEventHeader :=
  { What := le32 b, Cpu := le32 (b.drop 4), Timestamp := le64 (b.drop 8) }

/-- Field-by-field little-endian decode of `forkProcEvent` from 16 bytes. -/
def decodeForkProcEvent (b : List Nat) : forkProcEvent :=
  { ParentPid := le32 b
    ParentTgid := le32 (b.drop 4)
    ChildPid := le32 (b.drop 8)
    ChildTgid := le32 (b.drop 12) }

/-- Field-by-field little-endian decode of `execProcEvent` from 8 bytes. -/
def decodeExecProcEvent (b : List Nat) : execProcEvent :=
  { ProcessPid := le32 b, ProcessTgid := le32 (b.drop 4) }

/-- Field-by-field little-endian decode of `exitProcEvent` from 16 bytes. -/
def decodeExitProcEvent (b : List Nat) : exitProcEvent :=
  { ProcessPid := le32 b
    ProcessTgid := le32 (b.drop 4)
    ExitCode := le32 (b.drop 8)
    ExitSignal := le32 (b.drop 12) }

/-- Little-endian decode of `syscall.NlMsghdr` from the head of a buffer
(the Go parser reads it in place from the start of the remaining frame). -/
def decodeNlMsghdr (b : List Nat) : NlMsghdr :=
  { Len := le32 b
    Typ := le16 (b.drop 4)
    Flags := le16 (b.drop 6)
    Seq := le32 (b.drop 8)
    Pid := le32 (b.drop 12) }

/-! ## Encoders (layout of `binary.Write` on the same structs) -/

/-- `binary.Write` layout of `syscall.NlMsghdr`. -/
def encodeNlMsghdr (h : NlMsghdr) : List Nat :=
  u32le h.Len ++ (u16le h.Typ ++ (u16le h.Flags ++ (u32le h.Seq ++ u32le h.Pid)))

/-- `binary.Write` layout of `cnMsg`. -/
def encodeCnMsg (m : cnMsg) : List Nat :=
  u32le m.Id.Idx ++ (u32le m.Id.Val ++ (u32le m.Seq ++ (u32le m.Ack ++ (u16le m.Len ++ u16le m.Flags))))

/-- `binary.Write` layout of `procEventHeader`. -/
def encodeProcEventHeader (h : procEventHeader) : List Nat :=
  u32le h.What ++ (u32le h.Cpu ++ u64le h.Timestamp)

/-! ## Decoded consumer-facing events

One constructor per output channel of `PsEvent`: `ProcEvent.fork p c` is a
`*ProcEventFork{ParentPid: p, ChildPid: c}` sent on the `Fork` channel, and
similarly for `Exec` and `Exit`. -/

/-- A typed event together with the output channel it is sent on. -/
inductive ProcEvent where
  | fork (ParentPid ChildPid : Nat)
  | exec (Pid : Nat)
  | exit (Pid : Nat)
deriving DecidableEq

/-- `PsEvent.handleEvent`: decode one envelope payload (a `cnMsg`, then a
`procEventHeader`, then the body selected by `hdr.What`) and return the list
of events sent to the output channels, in send order.  Every `binary.Read`
error is discarded (`_ = binary.Read(...)` in the source); a failed read
leaves the destination struct at its zero value. -/
def handleEvent (data : List Nat) : List ProcEvent :=
  let r0 := binRead 20 cnMsgZero decodeCnMsg data
  let r1 := binRead 16 procEventHeaderZero decodeProcEventHeader r0.2
  let hdr := r1.1
  if hdr.What = PROC_EVENT_FORK then
    let event := (binRead 16 forkProcEventZero decodeForkProcEvent r1.2).1
    [ProcEvent.fork event.ParentTgid event.ChildTgid]
  else if hdr.What = PROC_EVENT_EXEC then
    let event := (binRead 8 execProcEventZero decodeExecProcEvent r1.2).1
    [ProcEvent.exec event.ProcessTgid]
  else if hdr.What = PROC_EVENT_EXIT then
    let event := (binRead 16 exitProcEventZero decodeExitProcEvent r1.2).1
    [ProcEvent.exit event.ProcessTgid]
  else []

/-! ## syscall.ParseNetlinkMessage -/

/-- `nlmAlignOf`: round a message length up to the 4-byte netlink alignment. -/
def nlmAlignOf (n : Nat) : Nat := (n + 3) / 4 * 4

/-- The loop body of `syscall.ParseNetlinkMessage`: while at least
`NLMSG_HDRLEN` bytes remain, read one `NlMsghdr`, reject the frame (`nil`
messages, `EINVAL`) if the header length is shorter than a header or runs
past the buffer, otherwise collect the message payload and continue after
the aligned length.  `fuel` only bounds the number of iterations so that the
recursion is structural; every iteration consumes at least `NLMSG_HDRLEN`
bytes, so `fuel = b.length` (as supplied by `parseNetlinkMessage`) is always
sufficient and the `fuel = 0` branch is unreachable there. -/
def parseNetlinkLoop : Nat → List Nat → Option (List (NlMsghdr × List Nat))
  | 0, b => if NLMSG_HDRLEN ≤ b.length then none else some []
  | fuel + 1, b =>
    if NLMSG_HDRLEN ≤ b.length then
      let h := decodeNlMsghdr b
      let l := nlmAlignOf h.Len
      if h.Len < NLMSG_HDRLEN ∨ b.length < l then none
      else
        match parseNetlinkLoop fuel (b.drop l) with
        | none => none
        | some ms => some ((h, (b.drop NLMSG_HDRLEN).take (h.Len - NLMSG_HDRLEN)) :: ms)
    else some []

/-- `syscall.ParseNetlinkMessage` on one received frame: `none` models the
`nil, EINVAL` error return (in which case `readEvents` sees no messages),
`some ms` the parsed message list. -/
def parseNetlinkMessage (b : List Nat) : Option (List (NlMsghdr × List Nat)) :=
  parseNetlinkLoop b.length b

/-- The per-frame decode/dispatch of `PsEvent.readEvents`: parse the frame
(dropping all messages on a parse error, as the error is discarded), then
run `handleEvent` on each message whose type is `NLMSG_DONE`, concatenating
the dispatched events in message order. -/
def readFrameEvents (frame : List Nat) : List ProcEvent :=
  (((parseNetlinkMessage frame).getD []).map
    (fun m => if m.1.Typ = NLMSG_DONE then handleEvent m.2 else [])).flatten

/-- Outcome of one blocking `syscall.Recvfrom` on the netlink socket. -/
inductive RecvResult where
  | recvError (errno : Nat)
  | ok (frame : List Nat)

/-- An error value sent on the `Error` channel by `readEvents`. -/
inductive LoopError where
  | socketError (errno : Nat)
  | protocolError
deriving DecidableEq

/-- One iteration of the `readEvents` loop after the `isDone` check came
back false, driven by the receive outcome: `(errors sent on Error, events
sent on the output channels, whether the loop proceeds to the next
receive)`.  A receive error forwards the error and continues; a frame
shorter than `NLMSG_HDRLEN` forwards `syscall.EINVAL` (`protocolError`) and
continues; otherwise the frame is decoded and dispatched and the loop
continues. -/
def readEventsStep : RecvResult → List LoopError × List ProcEvent × Bool
  | RecvResult.recvError e => ([LoopError.socketError e], [], true)
  | RecvResult.ok frame =>
    if frame.length < NLMSG_HDRLEN then ([LoopError.protocolError], [], true)
    else ([], readFrameEvents frame, true)

/-! ## NetLink: control-frame construction and the open/close syscall paths -/

/-- The mutable part of the Go `NetLink` listener: the socket descriptor and
the `struct cn_msg.seq` counter (a `uint32`). -/
@[ext]
structure NetLinkState where
  sock : Nat
  seq : Nat
deriving DecidableEq

/-- The envelope header `NetLink.send` builds: the length is
`NLMSG_HDRLEN + plen` where `plen = binary.Size(cnMsg) + binary.Size(op)
= 20 + 4`, the type is `NLMSG_DONE`, flags are zero, the sequence is the
incremented counter, and the pid is `os.Getpid()`. -/
def sendHdr (seq pid : Nat) : NlMsghdr :=
  { Len := NLMSG_HDRLEN + (20 + 4), Typ := NLMSG_DONE, Flags := 0, Seq := seq, Pid := pid }

/-- The connector header `NetLink.send` builds: the process-events channel
pair, `Len = binary.Size(op) = 4`, and every other field left at its zero
value (the source never assigns `Seq`, `Ack` or `Flags`). -/
def sendCnMsg : cnMsg :=
  { Id := { Idx := CN_IDX_PROC, Val := CN_VAL_PROC }, Seq := 0, Ack := 0, Len := 4, Flags := 0 }

/-- The byte sequence built by `NetLink.send(op)` once the sequence counter
has been incremented to `seq`: a `NetLinkMessage` (envelope header plus
connector header) followed by the 4-byte operation code. -/
def sendFrame (seq pid op : Nat) : List Nat :=
  encodeNlMsghdr (sendHdr seq pid) ++ (encodeCnMsg sendCnMsg ++ u32le op)

/-- `NetLink.send(op)`: increment the `uint32` sequence counter, then build
and transmit the control frame.  `pid` is `os.Getpid()`.  Returns the new
listener state and the bytes handed to `syscall.Sendto`. -/
def netlinkSend (st : NetLinkState) (pid op : Nat) : NetLinkState × List Nat :=
  ({ st with seq := (st.seq + 1) % 4294967296 }, sendFrame ((st.seq + 1) % 4294967296) pid op)

/-- The kernel-interaction steps `NetLink.bind`/`NetLink.close` can take,
recorded in order. -/
inductive SysCall where
  | socketCall
  | bindCall (fd : Nat)
  | sendtoCall (fd : Nat)
  | closeCall (fd : Nat)
deriving DecidableEq

/-- Outcomes the kernel hands back to the three fallible calls made by
`NetLink.bind`: `syscall.Socket` (error or a descriptor), `syscall.Bind`,
and the `syscall.Sendto` inside `send(_PROC_CN_MCAST_LISTEN)`. -/
structure SysOracle where
  socketRes : Except Nat Nat
  bindRes : Except Nat Unit
  sendtoRes : Except Nat Unit

/-- `NetLink.bind` (the body of `createListener`, i.e. the failing paths of
`Listen`): allocate the socket, on success store it and bind, on success
send the listen control message (which increments `seq` from 0 to 1).  Each
early `return err` leaves the function immediately: the source contains no
`syscall.Close` on any of these paths.  The result pairs the Go return
value with the ordered trace of kernel calls made. -/
def netlinkBind (o : SysOracle) : Except Nat NetLinkState × List SysCall :=
  match o.socketRes with
  | Except.error e => (Except.error e, [SysCall.socketCall])
  | Except.ok sock =>
    match o.bindRes with
    | Except.error e => (Except.error e, [SysCall.socketCall, SysCall.bindCall sock])
    | Except.ok _ =>
      match o.sendtoRes with
      | Except.error e =>
          (Except.error e, [SysCall.socketCall, SysCall.bindCall sock, SysCall.sendtoCall sock])
      | Except.ok _ =>
          (Except.ok { sock := sock, seq := 1 },
           [SysCall.socketCall, SysCall.bindCall sock, SysCall.sendtoCall sock])

/-- The kernel calls made by `NetLink.close`: send the ignore control
message, then close the socket (the close happens even if the send fails). -/
def netlinkClose (st : NetLinkState) : List SysCall :=
  [SysCall.sendtoCall st.sock, SysCall.closeCall st.sock]

/-- Whether a recorded kernel call releases a socket descriptor. -/
def isCloseCall : SysCall → Bool
  | SysCall.closeCall _ => true
  | _ => false

/-- A concrete kernel behaviour: socket allocation yields descriptor 3 and
the subsequent bind fails with errno 13 (EACCES). -/
def bindFailOracle : SysOracle :=
  { socketRes := Except.ok 3, bindRes := Except.error 13, sendtoRes := Except.ok () }

/-! ## PsEvent engine state: Listen, Close, isDone -/

/-- The observable state of a `PsEvent` engine: the `watches` map (as an
association list pid to flags), the single-slot buffered `done` channel
(`some v` when a value `v` is sitting in the buffer), the closed-flags of
the four output channels, and whether the netlink socket has been closed. -/
@[ext]
structure PsEventState where
  watches : List (Nat × Nat)
  doneBuf : Option Bool
  forkClosed : Bool
  execClosed : Bool
  exitClosed : Bool
  errorClosed : Bool
  socketClosed : Bool
deriving DecidableEq

/-- The engine state constructed by `Listen()`: fresh open channels, an
empty buffered `done` channel, and the `watches` field left unset (`nil`). -/
def listenPs : PsEventState :=
  { watches := [], doneBuf := none, forkClosed := false, execClosed := false,
    exitClosed := false, errorClosed := false, socketClosed := false }

/-- `PsEvent.finish`: close the four output channels. -/
def finishPs (p : PsEventState) : PsEventState :=
  { p with forkClosed := true, execClosed := true, exitClosed := true, errorClosed := true }

/-- `PsEvent.Close()`: the body is exactly `return p.listener.close()`, which
sends the ignore control frame and closes the netlink socket.  Nothing else
in the source writes to the `done` channel. -/
def closePs (p : PsEventState) : PsEventState := { p with socketClosed := true }

/-- `PsEvent.isDone`: non-blocking receive on the `done` channel; if a value
is buffered, consume it, run `finish`, and return it, otherwise return
false. -/
def isDonePs (p : PsEventState) : PsEventState × Bool :=
  match p.doneBuf with
  | some v => (finishPs { p with doneBuf := none }, v)
  | none => (p, false)

/-- `PsEvent.handleEvent` as a method: the receiver is available but its
`watches` field (and every other field) is never consulted by the decode
and dispatch path in the source. -/
def handleEventOn (p : PsEventState) (data : List Nat) : List ProcEvent := handleEvent data

/-! ## Well-formed kernel event messages, for frames carrying several events -/

/-- One well-formed kernel process event as it appears on the wire. -/
inductive WireEvent where
  | fork (ParentPid ParentTgid ChildPid ChildTgid : Nat)
  | exec (ProcessPid ProcessTgid : Nat)
  | exit (ProcessPid ProcessTgid ExitCode ExitSignal : Nat)
deriving DecidableEq

/-- The `proc_event.what` value of a wire event. -/
def WireEvent.what : WireEvent → Nat
  | WireEvent.fork _ _ _ _ => PROC_EVENT_FORK
  | WireEvent.exec _ _ => PROC_EVENT_EXEC
  | WireEvent.exit _ _ _ _ => PROC_EVENT_EXIT

/-- The event body bytes, following the struct layouts read by
`handleEvent`. -/
def WireEvent.body : WireEvent → List Nat
  | WireEvent.fork pp pt cp ct => u32le pp ++ (u32le pt ++ (u32le cp ++ u32le ct))
  | WireEvent.exec pp pt => u32le pp ++ u32le pt
  | WireEvent.exit pp pt c s => u32le pp ++ (u32le pt ++ (u32le c ++ u32le s))

/-- The typed event the engine is expected to deliver for a wire event:
the thread-group id fields, routed to the channel of the event's kind. -/
def WireEvent.toEvent : WireEvent → ProcEvent
  | WireEvent.fork _ pt _ ct => ProcEvent.fork pt ct
  | WireEvent.exec _ pt => ProcEvent.exec pt
  | WireEvent.exit _ pt _ _ => ProcEvent.exit pt

/-- Well-formedness: every field fits in 32 bits, as on the real wire. -/
def WireEvent.wf : WireEvent → Prop
  | WireEvent.fork pp pt cp ct =>
      pp < 4294967296 ∧ pt < 4294967296 ∧ cp < 4294967296 ∧ ct < 4294967296
  | WireEvent.exec pp pt => pp < 4294967296 ∧ pt < 4294967296
  | WireEvent.exit pp pt c s =>
      pp < 4294967296 ∧ pt < 4294967296 ∧ c < 4294967296 ∧ s < 4294967296

instance (e : WireEvent) : Decidable e.wf := by
  unfold WireEvent.wf
  cases e <;> infer_instance

/-- The envelope payload of one kernel event message: connector header,
process-event header, body. -/
def eventData (e : WireEvent) : List Nat :=
  encodeCnMsg { Id := { Idx := CN_IDX_PROC, Val := CN_VAL_PROC }, Seq := 0, Ack := 0,
                Len := 16 + e.body.length, Flags := 0 } ++
    (encodeProcEventHeader { What := e.what, Cpu := 0, Timestamp := 0 } ++ e.body)

/-- The envelope header of one kernel event message. -/
def eventHdr (e : WireEvent) : NlMsghdr :=
  { Len := NLMSG_HDRLEN + (eventData e).length, Typ := NLMSG_DONE, Flags := 0, Seq := 0, Pid := 0 }

/-- One complete kernel event message: an `NLMSG_DONE` envelope whose
payload is `eventData e`. -/
def eventMsg (e : WireEvent) : List Nat :=
  encodeNlMsghdr (eventHdr e) ++ eventData e

/-- A malformed envelope payload: a connector header `cn`, an event header
announcing a fork event, and a truncated body `r` (fewer than the 16 bytes
of a `forkProcEvent`). -/
def truncForkData (cn r : List Nat) (cpu ts : Nat) : List Nat :=
  cn ++ (encodeProcEventHeader { What := PROC_EVENT_FORK, Cpu := cpu, Timestamp := ts } ++ r)

/-- The envelope header framing `truncForkData cn r cpu ts` for a 20-byte
connector header: total payload length `20 + 16 + r.length`. -/
def truncForkHdr (r : List Nat) : NlMsghdr :=
  { Len := 52 + r.length, Typ := NLMSG_DONE, Flags := 0, Seq := 0, Pid := 0 }

/-! ## Helper lemmas: byte chunks -/

theorem u16le_length (n : Nat) : (u16le n).length = 2 := rfl

theorem u32le_length (n : Nat) : (u32le n).length = 4 := rfl

theorem u64le_length (n : Nat) : (u64le n).length = 8 := rfl

theorem encodeNlMsghdr_length (h : NlMsghdr) : (encodeNlMsghdr h).length = 16 := rfl

theorem encodeCnMsg_length (m : cnMsg) : (encodeCnMsg m).length = 20 := rfl

theorem encodeProcEventHeader_length (h : procEventHeader) : (encodeProcEventHeader h).length = 16 := rfl

theorem drop4_u32le (a : Nat) (t : List Nat) : (u32le a ++ t).drop 4 = t := rfl

theorem drop6_u32_u16 (a b : Nat) (t : List Nat) : (u32le a ++ (u16le b ++ t)).drop 6 = t := rfl

theorem drop8_u32_u16_u16 (a b c : Nat) (t : List Nat) :
    (u32le a ++ (u16le b ++ (u16le c ++ t))).drop 8 = t := rfl

theorem drop12_u32_u16_u16_u32 (a b c d : Nat) (t : List Nat) :
    (u32le a ++ (u16le b ++ (u16le c ++ (u32le d ++ t)))).drop 12 = t := rfl

theorem drop8_u32_u32 (a b : Nat) (t : List Nat) : (u32le a ++ (u32le b ++ t)).drop 8 = t := rfl

theorem drop12_u32_u32_u32 (a b c : Nat) (t : List Nat) :
    (u32le a ++ (u32le b ++ (u32le c ++ t))).drop 12 = t := rfl

theorem le16_u16le (n : Nat) : le16 (u16le n) = n % 65536 := by
  show n % 256 + 256 * (n / 256 % 256) = n % 65536
  omega

theorem le16_u16le_append (n : Nat) (t : List Nat) : le16 (u16le n ++ t) = n % 65536 := by
  show n % 256 + 256 * (n / 256 % 256) = n % 65536
  omega

theorem le32_u32le (n : Nat) : le32 (u32le n) = n % 4294967296 := by
  show n % 256 + 256 * (n / 256 % 256) + 65536 * (n / 65536 % 256) +
    16777216 * (n / 16777216 % 256) = n % 4294967296
  omega

theorem le32_u32le_append (n : Nat) (t : List Nat) : le32 (u32le n ++ t) = n % 4294967296 := by
  show n % 256 + 256 * (n / 256 % 256) + 65536 * (n / 65536 % 256) +
    16777216 * (n / 16777216 % 256) = n % 4294967296
  omega

theorem le64_u64le (n : Nat) : le64 (u64le n) = n % 18446744073709551616 := by
  unfold le64 u64le
  rw [le32_u32le_append, drop4_u32le, le32_u32le]
  omega

/-! ## Helper lemmas: binRead -/

theorem binRead_exact {α : Type} {n : Nat} {z : α} {d : List Nat → α} {l r : List Nat}
    (h : l.length = n) : binRead n z d (l ++ r) = (d l, r) := by
  unfold binRead
  rw [if_pos (by simp only [List.length_append]; omega), List.take_left' h, List.drop_left' h]

theorem binRead_all {α : Type} {n : Nat} {z : α} {d : List Nat → α} {l : List Nat}
    (h : l.length = n) : binRead n z d l = (d l, []) := by
  unfold binRead
  rw [if_pos (le_of_eq h.symm), List.take_of_length_le (le_of_eq h),
    List.drop_eq_nil_of_le (le_of_eq h)]

theorem binRead_short {α : Type} {n : Nat} {z : α} {d : List Nat → α} {l : List Nat}
    (h : l.length < n) : binRead n z d l = (z, []) := by
  unfold binRead
  rw [if_neg (by omega)]

/-! ## Helper lemmas: decoding an encoded struct -/

theorem decodeNlMsghdr_encode (h : NlMsghdr) (t : List Nat)
    (h1 : h.Len < 4294967296) (h2 : h.Typ < 65536) (h3 : h.Flags < 65536)
    (h4 : h.Seq < 4294967296) (h5 : h.Pid < 4294967296) :
    decodeNlMsghdr (encodeNlMsghdr h ++ t) = h := by
  obtain ⟨L, T, F, S, P⟩ := h
  simp only at h1 h2 h3 h4 h5
  simp only [encodeNlMsghdr, List.append_assoc, decodeNlMsghdr,
    drop4_u32le, drop6_u32_u16, drop8_u32_u16_u16, drop12_u32_u16_u16_u32,
    le32_u32le_append, le16_u16le_append, NlMsghdr.mk.injEq]
  exact ⟨Nat.mod_eq_of_lt h1, Nat.mod_eq_of_lt h2, Nat.mod_eq_of_lt h3,
    Nat.mod_eq_of_lt h4, Nat.mod_eq_of_lt h5⟩

theorem decodeProcEventHeader_encode (h : procEventHeader) :
    decodeProcEventHeader (encodeProcEventHeader h) =
      { What := h.What % 4294967296, Cpu := h.Cpu % 4294967296,
        Timestamp := h.Timestamp % 18446744073709551616 } := by
  obtain ⟨W, C, T⟩ := h
  simp only [encodeProcEventHeader, decodeProcEventHeader, drop4_u32le, drop8_u32_u32,
    le32_u32le_append, le64_u64le, procEventHeader.mk.injEq]

theorem decodeForkProcEvent_encode (pp pt cp ct : Nat) :
    decodeForkProcEvent (u32le pp ++ (u32le pt ++ (u32le cp ++ u32le ct))) =
      { ParentPid := pp % 4294967296, ParentTgid := pt % 4294967296,
        ChildPid := cp % 4294967296, ChildTgid := ct % 4294967296 } := by
  simp only [decodeForkProcEvent, drop4_u32le, drop8_u32_u32, drop12_u32_u32_u32,
    le32_u32le_append, le32_u32le, forkProcEvent.mk.injEq]

theorem decodeExecProcEvent_encode (pp pt : Nat) :
    decodeExecProcEvent (u32le pp ++ u32le pt) =
      { ProcessPid := pp % 4294967296, ProcessTgid := pt % 4294967296 } := by
  simp only [decodeExecProcEvent, drop4_u32le, le32_u32le_append, le32_u32le,
    execProcEvent.mk.injEq]

theorem decodeExitProcEvent_encode (pp pt c s : Nat) :
    decodeExitProcEvent (u32le pp ++ (u32le pt ++ (u32le c ++ u32le s))) =
      { ProcessPid := pp % 4294967296, ProcessTgid := pt % 4294967296,
        ExitCode := c % 4294967296, ExitSignal := s % 4294967296 } := by
  simp only [decodeExitProcEvent, drop4_u32le, drop8_u32_u32, drop12_u32_u32_u32,
    le32_u32le_append, le32_u32le, exitProcEvent.mk.injEq]

/-! ## Helper lemmas: the netlink frame parser -/

theorem nlmAlignOf_aligned (n : Nat) (h : n % 4 = 0) : nlmAlignOf n = n := by
  unfold nlmAlignOf
  omega

theorem le_nlmAlignOf (n : Nat) : n ≤ nlmAlignOf n := by
  unfold nlmAlignOf
  omega

theorem parseNetlinkLoop_short (fuel : Nat) (b : List Nat) (h : b.length < NLMSG_HDRLEN) :
    parseNetlinkLoop fuel b = some [] := by
  cases fuel with
  | zero => rw [parseNetlinkLoop, if_neg (by omega)]
  | succ fuel => rw [parseNetlinkLoop, if_neg (by omega)]

theorem parseNetlinkLoop_congr :
    ∀ (f1 f2 : Nat) (b : List Nat), b.length ≤ f1 → b.length ≤ f2 →
      parseNetlinkLoop f1 b = parseNetlinkLoop f2 b := by
  intro f1
  induction f1 with
  | zero =>
    intro f2 b h1 h2
    have hb : b.length < NLMSG_HDRLEN := by unfold NLMSG_HDRLEN; omega
    rw [parseNetlinkLoop_short _ _ hb, parseNetlinkLoop_short _ _ hb]
  | succ f1 ih =>
    intro f2 b h1 h2
    by_cases hb : NLMSG_HDRLEN ≤ b.length
    · obtain ⟨k, rfl⟩ : ∃ k, f2 = k + 1 := ⟨f2 - 1, by unfold NLMSG_HDRLEN at hb; omega⟩
      rw [parseNetlinkLoop, parseNetlinkLoop, if_pos hb, if_pos hb]
      have hlen16 : NLMSG_HDRLEN ≤ nlmAlignOf (decodeNlMsghdr b).Len ∨
          (decodeNlMsghdr b).Len < NLMSG_HDRLEN :=
        Or.elim (Nat.lt_or_ge (decodeNlMsghdr b).Len NLMSG_HDRLEN) Or.inr
          (fun hg => Or.inl (le_trans hg (le_nlmAlignOf _)))
      by_cases hg : (decodeNlMsghdr b).Len < NLMSG_HDRLEN ∨
          b.length < nlmAlignOf (decodeNlMsghdr b).Len
      · rw [if_pos hg, if_pos hg]
      · rw [if_neg hg, if_neg hg]
        have hal : NLMSG_HDRLEN ≤ nlmAlignOf (decodeNlMsghdr b).Len := by
          rcases hlen16 with h' | h'
          · exact h'
          · exact absurd (Or.inl h') hg
        have hd1 : (b.drop (nlmAlignOf (decodeNlMsghdr b).Len)).length ≤ f1 := by
          rw [List.length_drop]
          unfold NLMSG_HDRLEN at hb hal
          omega
        have hd2 : (b.drop (nlmAlignOf (decodeNlMsghdr b).Len)).length ≤ k := by
          rw [List.length_drop]
          unfold NLMSG_HDRLEN at hb hal
          omega
        rw [ih k (b.drop (nlmAlignOf (decodeNlMsghdr b).Len)) hd1 hd2]
    · have hb' : b.length < NLMSG_HDRLEN := by omega
      rw [parseNetlinkLoop_short _ _ hb', parseNetlinkLoop_short _ _ hb']

/-- Parsing one well-formed, 4-byte-aligned message followed by the remainder
of the frame parses the message and continues with the remainder. -/
theorem parseNetlinkMessage_cons (h : NlMsghdr) (payload rest : List Nat)
    (hlen : h.Len = NLMSG_HDRLEN + payload.length)
    (hal : h.Len % 4 = 0)
    (hdec : decodeNlMsghdr (encodeNlMsghdr h ++ (payload ++ rest)) = h) :
    parseNetlinkMessage (encodeNlMsghdr h ++ (payload ++ rest)) =
      (parseNetlinkMessage rest).map (fun ms => (h, payload) :: ms) := by
  have hlb : (encodeNlMsghdr h ++ (payload ++ rest)).length =
      16 + (payload.length + rest.length) := by
    simp [List.length_append, encodeNlMsghdr_length]
  have e3 : (encodeNlMsghdr h ++ (payload ++ rest)).drop NLMSG_HDRLEN = payload ++ rest :=
    List.drop_left' (encodeNlMsghdr_length h)
  have e4 : (payload ++ rest).take (h.Len - NLMSG_HDRLEN) = payload := by
    have hp : h.Len - NLMSG_HDRLEN = payload.length := by omega
    rw [hp]
    exact List.take_left' rfl
  have e5 : (encodeNlMsghdr h ++ (payload ++ rest)).drop h.Len = rest := by
    rw [← List.append_assoc]
    refine List.drop_left' ?_
    simp [List.length_append, encodeNlMsghdr_length]
    unfold NLMSG_HDRLEN at hlen
    omega
  unfold parseNetlinkMessage
  rw [hlb]
  obtain ⟨k, hk⟩ : ∃ k, 16 + (payload.length + rest.length) = k + 1 :=
    ⟨15 + (payload.length + rest.length), by omega⟩
  rw [hk, parseNetlinkLoop,
    if_pos (show NLMSG_HDRLEN ≤ (encodeNlMsghdr h ++ (payload ++ rest)).length by
      rw [hlb]; unfold NLMSG_HDRLEN; omega)]
  simp only [hdec]
  rw [nlmAlignOf_aligned _ hal]
  rw [if_neg (by
    rw [hlb]
    unfold NLMSG_HDRLEN at hlen ⊢
    omega)]
  rw [e5, e3, e4]
  rw [parseNetlinkLoop_congr k rest.length rest (by omega) (le_refl _)]
  cases parseNetlinkLoop rest.length rest <;> rfl

/-! ## Helper lemmas: handleEvent on one envelope payload -/

theorem handleEvent_fork (cn : List Nat) (hcn : cn.length = 20) (cpu ts pp pt cp ct : Nat) :
    handleEvent (cn ++
        (encodeProcEventHeader { What := PROC_EVENT_FORK, Cpu := cpu, Timestamp := ts } ++
          (u32le pp ++ (u32le pt ++ (u32le cp ++ u32le ct))))) =
      [ProcEvent.fork (pt % 4294967296) (ct % 4294967296)] := by
  simp only [handleEvent]
  rw [binRead_exact hcn]
  dsimp only
  rw [binRead_exact (encodeProcEventHeader_length _)]
  dsimp only
  rw [decodeProcEventHeader_encode]
  dsimp only
  rw [show (PROC_EVENT_FORK : Nat) % 4294967296 = PROC_EVENT_FORK from rfl, if_pos rfl]
  rw [binRead_all (show (u32le pp ++ (u32le pt ++ (u32le cp ++ u32le ct))).length = 16 from rfl)]
  dsimp only
  rw [decodeForkProcEvent_encode]

theorem handleEvent_exec (cn : List Nat) (hcn : cn.length = 20) (cpu ts pp pt : Nat) :
    handleEvent (cn ++
        (encodeProcEventHeader { What := PROC_EVENT_EXEC, Cpu := cpu, Timestamp := ts } ++
          (u32le pp ++ u32le pt))) =
      [ProcEvent.exec (pt % 4294967296)] := by
  simp only [handleEvent]
  rw [binRead_exact hcn]
  dsimp only
  rw [binRead_exact (encodeProcEventHeader_length _)]
  dsimp only
  rw [decodeProcEventHeader_encode]
  dsimp only
  rw [show (PROC_EVENT_EXEC : Nat) % 4294967296 = PROC_EVENT_EXEC from rfl]
  rw [if_neg (by unfold PROC_EVENT_EXEC PROC_EVENT_FORK; omega), if_pos rfl]
  rw [binRead_all (show (u32le pp ++ u32le pt).length = 8 from rfl)]
  dsimp only
  rw [decodeExecProcEvent_encode]

theorem handleEvent_exit (cn : List Nat) (hcn : cn.length = 20) (cpu ts pp pt c s : Nat) :
    handleEvent (cn ++
        (encodeProcEventHeader { What := PROC_EVENT_EXIT, Cpu := cpu, Timestamp := ts } ++
          (u32le pp ++ (u32le pt ++ (u32le c ++ u32le s))))) =
      [ProcEvent.exit (pt % 4294967296)] := by
  simp only [handleEvent]
  rw [binRead_exact hcn]
  dsimp only
  rw [binRead_exact (encodeProcEventHeader_length _)]
  dsimp only
  rw [decodeProcEventHeader_encode]
  dsimp only
  rw [show (PROC_EVENT_EXIT : Nat) % 4294967296 = PROC_EVENT_EXIT from rfl]
  rw [if_neg (by unfold PROC_EVENT_EXIT PROC_EVENT_FORK; omega),
    if_neg (by unfold PROC_EVENT_EXIT PROC_EVENT_EXEC; omega), if_pos rfl]
  rw [binRead_all (show (u32le pp ++ (u32le pt ++ (u32le c ++ u32le s))).length = 16 from rfl)]
  dsimp only
  rw [decodeExitProcEvent_encode]

theorem handleEvent_unknown (cn : List Nat) (hcn : cn.length = 20) (what cpu ts : Nat)
    (body : List Nat) (h1 : what % 4294967296 ≠ PROC_EVENT_FORK)
    (h2 : what % 4294967296 ≠ PROC_EVENT_EXEC) (h3 : what % 4294967296 ≠ PROC_EVENT_EXIT) :
    handleEvent (cn ++
      (encodeProcEventHeader { What := what, Cpu := cpu, Timestamp := ts } ++ body)) = [] := by
  simp only [handleEvent]
  rw [binRead_exact hcn]
  dsimp only
  rw [binRead_exact (encodeProcEventHeader_length _)]
  dsimp only
  rw [decodeProcEventHeader_encode]
  dsimp only
  rw [if_neg h1, if_neg h2, if_neg h3]

/-- A payload too short to contain the connector header and the event
header yields no event: the failed header read leaves `What = 0`, which
matches no known kind. -/
theorem handleEvent_short (data : List Nat) (h : data.length < 36) : handleEvent data = [] := by
  simp only [handleEvent]
  by_cases h20 : 20 ≤ data.length
  · have e1 : binRead 20 cnMsgZero decodeCnMsg data =
        (decodeCnMsg (data.take 20), data.drop 20) := by
      unfold binRead
      rw [if_pos h20]
    rw [e1]
    dsimp only
    have e2 : binRead 16 procEventHeaderZero decodeProcEventHeader (data.drop 20) =
        (procEventHeaderZero, []) := binRead_short (by rw [List.length_drop]; omega)
    rw [e2]
    dsimp only
    rw [if_neg (by decide), if_neg (by decide), if_neg (by decide)]
  · have e1 : binRead 20 cnMsgZero decodeCnMsg data = (cnMsgZero, []) :=
      binRead_short (by omega)
    rw [e1]
    dsimp only
    have e2 : binRead 16 procEventHeaderZero decodeProcEventHeader [] =
        (procEventHeaderZero, []) := binRead_short (by simp)
    rw [e2]
    dsimp only
    rw [if_neg (by decide), if_neg (by decide), if_neg (by decide)]

theorem handleEvent_fork_trunc (cn r : List Nat) (hcn : cn.length = 20) (hr : r.length < 16)
    (cpu ts : Nat) :
    handleEvent (cn ++
        (encodeProcEventHeader { What := PROC_EVENT_FORK, Cpu := cpu, Timestamp := ts } ++ r)) =
      [ProcEvent.fork 0 0] := by
  simp only [handleEvent]
  rw [binRead_exact hcn]
  dsimp only
  rw [binRead_exact (encodeProcEventHeader_length _)]
  dsimp only
  rw [decodeProcEventHeader_encode]
  dsimp only
  rw [show (PROC_EVENT_FORK : Nat) % 4294967296 = PROC_EVENT_FORK from rfl, if_pos rfl]
  rw [binRead_short hr]
  dsimp only
  rfl

theorem handleEvent_exec_trunc (cn s : List Nat) (hcn : cn.length = 20) (hs : s.length < 8)
    (cpu ts : Nat) :
    handleEvent (cn ++
        (encodeProcEventHeader { What := PROC_EVENT_EXEC, Cpu := cpu, Timestamp := ts } ++ s)) =
      [ProcEvent.exec 0] := by
  simp only [handleEvent]
  rw [binRead_exact hcn]
  dsimp only
  rw [binRead_exact (encodeProcEventHeader_length _)]
  dsimp only
  rw [decodeProcEventHeader_encode]
  dsimp only
  rw [show (PROC_EVENT_EXEC : Nat) % 4294967296 = PROC_EVENT_EXEC from rfl]
  rw [if_neg (by unfold PROC_EVENT_EXEC PROC_EVENT_FORK; omega), if_pos rfl]
  rw [binRead_short hs]
  dsimp only
  rfl

theorem handleEvent_exit_trunc (cn r : List Nat) (hcn : cn.length = 20) (hr : r.length < 16)
    (cpu ts : Nat) :
    handleEvent (cn ++
        (encodeProcEventHeader { What := PROC_EVENT_EXIT, Cpu := cpu, Timestamp := ts } ++ r)) =
      [ProcEvent.exit 0] := by
  simp only [handleEvent]
  rw [binRead_exact hcn]
  dsimp only
  rw [binRead_exact (encodeProcEventHeader_length _)]
  dsimp only
  rw [decodeProcEventHeader_encode]
  dsimp only
  rw [show (PROC_EVENT_EXIT : Nat) % 4294967296 = PROC_EVENT_EXIT from rfl]
  rw [if_neg (by unfold PROC_EVENT_EXIT PROC_EVENT_FORK; omega),
    if_neg (by unfold PROC_EVENT_EXIT PROC_EVENT_EXEC; omega), if_pos rfl]
  rw [binRead_short hr]
  dsimp only
  rfl

/-! ## Helper lemmas: whole frames of encoded kernel event messages -/

theorem eventData_length (e : WireEvent) : (eventData e).length = 36 + e.body.length := by
  cases e <;> rfl

theorem body_length (e : WireEvent) : e.body.length = 16 ∨ e.body.length = 8 := by
  cases e
  · exact Or.inl rfl
  · exact Or.inr rfl
  · exact Or.inl rfl

theorem handleEvent_eventData (e : WireEvent) (he : e.wf) :
    handleEvent (eventData e) = [e.toEvent] := by
  cases e with
  | fork pp pt cp ct =>
    simp only [WireEvent.wf] at he
    obtain ⟨h1, h2, h3, h4⟩ := he
    simp only [eventData, WireEvent.what, WireEvent.body, WireEvent.toEvent]
    rw [handleEvent_fork _ (encodeCnMsg_length _), Nat.mod_eq_of_lt h2, Nat.mod_eq_of_lt h4]
  | exec pp pt =>
    simp only [WireEvent.wf] at he
    obtain ⟨h1, h2⟩ := he
    simp only [eventData, WireEvent.what, WireEvent.body, WireEvent.toEvent]
    rw [handleEvent_exec _ (encodeCnMsg_length _), Nat.mod_eq_of_lt h2]
  | exit pp pt c s =>
    simp only [WireEvent.wf] at he
    obtain ⟨h1, h2, h3, h4⟩ := he
    simp only [eventData, WireEvent.what, WireEvent.body, WireEvent.toEvent]
    rw [handleEvent_exit _ (encodeCnMsg_length _), Nat.mod_eq_of_lt h2]

theorem eventHdr_len (e : WireEvent) : (eventHdr e).Len = NLMSG_HDRLEN + (eventData e).length :=
  rfl

theorem eventHdr_bounds (e : WireEvent) :
    (eventHdr e).Len < 4294967296 ∧ (eventHdr e).Len % 4 = 0 := by
  have hb := body_length e
  have hd := eventData_length e
  rw [eventHdr_len, hd]
  unfold NLMSG_HDRLEN
  omega

theorem parse_eventMsgs (es : List WireEvent) :
    parseNetlinkMessage (es.map eventMsg).flatten =
      some (es.map fun e => (eventHdr e, eventData e)) := by
  induction es with
  | nil => rfl
  | cons e es ih =>
    show parseNetlinkMessage (eventMsg e ++ (es.map eventMsg).flatten) = _
    rw [show eventMsg e ++ (es.map eventMsg).flatten =
        encodeNlMsghdr (eventHdr e) ++ (eventData e ++ (es.map eventMsg).flatten) by
      rw [eventMsg, List.append_assoc]]
    rw [parseNetlinkMessage_cons _ _ _ (eventHdr_len e) (eventHdr_bounds e).2
      (decodeNlMsghdr_encode _ _ (eventHdr_bounds e).1
        (by rw [show (eventHdr e).Typ = 3 from rfl]; omega)
        (by rw [show (eventHdr e).Flags = 0 from rfl]; omega)
        (by rw [show (eventHdr e).Seq = 0 from rfl]; omega)
        (by rw [show (eventHdr e).Pid = 0 from rfl]; omega))]
    rw [ih]
    rfl

theorem flattenDispatch (es : List WireEvent) (h : ∀ e ∈ es, e.wf) :
    ((es.map fun e => (eventHdr e, eventData e)).map
      (fun m => if m.1.Typ = NLMSG_DONE then handleEvent m.2 else [])).flatten =
    es.map WireEvent.toEvent := by
  induction es with
  | nil => rfl
  | cons e es ih =>
    simp only [List.map_cons, List.flatten_cons]
    rw [show (if (eventHdr e).Typ = NLMSG_DONE then handleEvent (eventData e) else []) =
        handleEvent (eventData e) from if_pos rfl]
    rw [handleEvent_eventData e (h e (List.mem_cons_self e es))]
    rw [ih (fun x hx => h x (List.mem_cons_of_mem e hx))]
    rfl

/-! ## The claims -/

/-- Claim C1 (evidence for the code bug): invoking `Close` on the running
engine state produced by `Listen` never places a value in the single-slot
`done` buffer — the body of `Close` is exactly `return p.listener.close()`
and nothing in the source ever sends on the `done` channel — so the capture
loop's next `isDone` check returns false, `finish` is never reached, and
none of the four output queues is ever closed.  This contradicts both the
claim and the source's own comment on `isDone` ("The done message is sent
by the Close() method"). -/
theorem c1_close_never_signals_stop :
    (closePs listenPs).doneBuf = none ∧
    (isDonePs (closePs listenPs)).2 = false ∧
    (isDonePs (closePs listenPs)).1.forkClosed = false ∧
    (isDonePs (closePs listenPs)).1.execClosed = false ∧
    (isDonePs (closePs listenPs)).1.exitClosed = false ∧
    (isDonePs (closePs listenPs)).1.errorClosed = false ∧
    ∀ p : PsEventState, (closePs p).doneBuf = p.doneBuf :=
  ⟨rfl, rfl, rfl, rfl, rfl, rfl, fun p => rfl⟩

/-- Claim C2 counterexample: when socket allocation yields descriptor 3 and
the subsequent `syscall.Bind` fails with errno 13, `NetLink.bind` returns
the error, yet its syscall trace contains no close call — descriptor 3 is
leaked, refuting "the socket handle is released (closed) before the error
is returned". -/
theorem c2_counterexample :
    bindFailOracle.socketRes = Except.ok 3 ∧
    (netlinkBind bindFailOracle).1 = Except.error 13 ∧
    (netlinkBind bindFailOracle).2 = [SysCall.socketCall, SysCall.bindCall 3] ∧
    ((netlinkBind bindFailOracle).2).filter isCloseCall = [] :=
  ⟨rfl, rfl, rfl, rfl⟩

/-- Claim C2 amended: if `open` (`Listen`/`createListener`/`NetLink.bind`)
allocates the kernel socket and the subsequent bind or initial
listen-control send fails, the error is returned but the socket handle is
not released: no path of `NetLink.bind` performs a close call, so the
handle is leaked; only `NetLink.close` releases it. -/
theorem c2_amended_bind_never_releases :
    (∀ o : SysOracle, ((netlinkBind o).2).filter isCloseCall = []) ∧
    ∀ st : NetLinkState, (netlinkClose st).filter isCloseCall = [SysCall.closeCall st.sock] := by
  constructor
  · intro o
    obtain ⟨s, b, d⟩ := o
    cases s <;> cases b <;> cases d <;> rfl
  · intro st
    rfl

/-- Claim C3 counterexample: a payload with a complete connector header, a
complete event header announcing a fork event, and a 4-byte (truncated)
fork body makes `handleEvent` emit a zero-valued fork event on the `Fork`
channel.  The decode failure is silently discarded and the envelope is not
skipped: an event is emitted for it, refuting the claim. -/
theorem c3_counterexample :
    handleEvent (List.replicate 20 0 ++
        (encodeProcEventHeader { What := PROC_EVENT_FORK, Cpu := 0, Timestamp := 0 } ++
          [0, 0, 0, 0])) = [ProcEvent.fork 0 0] := by
  decide

/-- Claim C3 amended: for truncated or malformed input `handleEvent` is
total (it never aborts: every `binary.Read` error is discarded) and an
envelope too short to contain the connector and event headers yields no
event; but no decode failure is ever signalled, and an envelope whose
header announces any known kind (fork, exec, exit) with a truncated body
yields a single event whose missing fields read as zero rather than being
skipped.  Processing continues with further envelopes of the frame: a
frame holding a truncated-fork envelope followed by any well-formed event
messages still yields the zero-valued event followed by all their
events. -/
theorem c3_amended_no_failure_signal (data cn r s : List Nat) (es : List WireEvent) (cpu ts : Nat)
    (hcn : cn.length = 20) (hr : r.length < 16) (hr4 : r.length % 4 = 0) (hs : s.length < 8)
    (hwf : ∀ e ∈ es, e.wf) :
    (data.length < 36 → handleEvent data = []) ∧
    handleEvent (cn ++
        (encodeProcEventHeader { What := PROC_EVENT_FORK, Cpu := cpu, Timestamp := ts } ++ r)) =
      [ProcEvent.fork 0 0] ∧
    handleEvent (cn ++
        (encodeProcEventHeader { What := PROC_EVENT_EXEC, Cpu := cpu, Timestamp := ts } ++ s)) =
      [ProcEvent.exec 0] ∧
    handleEvent (cn ++
        (encodeProcEventHeader { What := PROC_EVENT_EXIT, Cpu := cpu, Timestamp := ts } ++ r)) =
      [ProcEvent.exit 0] ∧
    readFrameEvents (encodeNlMsghdr (truncForkHdr r) ++
        (truncForkData cn r cpu ts ++ (es.map eventMsg).flatten)) =
      ProcEvent.fork 0 0 :: es.map WireEvent.toEvent := by
  refine ⟨handleEvent_short data, handleEvent_fork_trunc cn r hcn hr cpu ts,
    handleEvent_exec_trunc cn s hcn hs cpu ts, handleEvent_exit_trunc cn r hcn hr cpu ts, ?_⟩
  have hf : handleEvent (truncForkData cn r cpu ts) = [ProcEvent.fork 0 0] := by
    unfold truncForkData
    exact handleEvent_fork_trunc cn r hcn hr cpu ts
  unfold readFrameEvents
  rw [parseNetlinkMessage_cons (truncForkHdr r) (truncForkData cn r cpu ts)
    ((es.map eventMsg).flatten)
    (by
      unfold truncForkHdr truncForkData NLMSG_HDRLEN
      dsimp only
      simp only [List.length_append, encodeProcEventHeader_length, hcn]
      omega)
    (by unfold truncForkHdr; dsimp only; omega)
    (decodeNlMsghdr_encode _ _
      (by unfold truncForkHdr; dsimp only; omega)
      (by unfold truncForkHdr NLMSG_DONE; dsimp only; omega)
      (by unfold truncForkHdr; dsimp only; omega)
      (by unfold truncForkHdr; dsimp only; omega)
      (by unfold truncForkHdr; dsimp only; omega))]
  rw [parse_eventMsgs, Option.map_some', Option.getD_some]
  simp only [List.map_cons, List.flatten_cons]
  rw [show (if (truncForkHdr r).Typ = NLMSG_DONE then handleEvent (truncForkData cn r cpu ts)
      else []) = handleEvent (truncForkData cn r cpu ts) from if_pos rfl]
  rw [hf, flattenDispatch es hwf]
  rfl

/-- Witness for the amended claim C3: too-short data `[]`, a 4-byte
truncated fork body, a 1-byte truncated exec body, a 4-byte truncated exit
body, and a frame pairing the truncated fork envelope with a well-formed
exec message that is still decoded after it. -/
theorem c3_amended_witness :
    (List.replicate 20 0).length = 20 ∧ ([0, 0, 0, 0] : List Nat).length < 16 ∧
    ([0, 0, 0, 0] : List Nat).length % 4 = 0 ∧ ([7] : List Nat).length < 8 ∧
    (∀ e ∈ [WireEvent.exec 9 55], e.wf) ∧
    ((([] : List Nat).length < 36 → handleEvent [] = []) ∧
      handleEvent (List.replicate 20 0 ++
          (encodeProcEventHeader { What := PROC_EVENT_FORK, Cpu := 0, Timestamp := 0 } ++
            [0, 0, 0, 0])) = [ProcEvent.fork 0 0] ∧
      handleEvent (List.replicate 20 0 ++
          (encodeProcEventHeader { What := PROC_EVENT_EXEC, Cpu := 0, Timestamp := 0 } ++ [7])) =
        [ProcEvent.exec 0] ∧
      handleEvent (List.replicate 20 0 ++
          (encodeProcEventHeader { What := PROC_EVENT_EXIT, Cpu := 0, Timestamp := 0 } ++
            [0, 0, 0, 0])) = [ProcEvent.exit 0] ∧
      readFrameEvents (encodeNlMsghdr (truncForkHdr [0, 0, 0, 0]) ++
          (truncForkData (List.replicate 20 0) [0, 0, 0, 0] 0 0 ++
            ([WireEvent.exec 9 55].map eventMsg).flatten)) =
        ProcEvent.fork 0 0 :: [WireEvent.exec 9 55].map WireEvent.toEvent) :=
  ⟨by decide, by decide, by decide, by decide, by decide,
    c3_amended_no_failure_signal [] (List.replicate 20 0) [0, 0, 0, 0] [7] [WireEvent.exec 9 55]
      0 0 (by decide) (by decide) (by decide) (by decide) (by decide)⟩

/-- Claim C4: for every well-formed fork, exec or exit wire payload, the
decoded event's reported pid fields equal the thread-group id fields of the
payload (`ParentTgid`/`ChildTgid` for fork, `ProcessTgid` for exec and
exit), not the raw process-id fields, for all values of the raw pid
fields — in particular when the two differ. -/
theorem c4_decode_reports_tgid (cn : List Nat) (hcn : cn.length = 20)
    (cpu ts pp pt cp ct code sig : Nat) (hpt : pt < 4294967296) (hct : ct < 4294967296) :
    handleEvent (cn ++
        (encodeProcEventHeader { What := PROC_EVENT_FORK, Cpu := cpu, Timestamp := ts } ++
          (u32le pp ++ (u32le pt ++ (u32le cp ++ u32le ct))))) = [ProcEvent.fork pt ct] ∧
    handleEvent (cn ++
        (encodeProcEventHeader { What := PROC_EVENT_EXEC, Cpu := cpu, Timestamp := ts } ++
          (u32le pp ++ u32le pt))) = [ProcEvent.exec pt] ∧
    handleEvent (cn ++
        (encodeProcEventHeader { What := PROC_EVENT_EXIT, Cpu := cpu, Timestamp := ts } ++
          (u32le pp ++ (u32le pt ++ (u32le code ++ u32le sig))))) = [ProcEvent.exit pt] := by
  refine ⟨?_, ?_, ?_⟩
  · rw [handleEvent_fork cn hcn, Nat.mod_eq_of_lt hpt, Nat.mod_eq_of_lt hct]
  · rw [handleEvent_exec cn hcn, Nat.mod_eq_of_lt hpt]
  · rw [handleEvent_exit cn hcn, Nat.mod_eq_of_lt hpt]

/-- Witness for claim C4: raw pids 7, 8, 9 differ from the thread-group ids
100, 101, and the decoded events report the thread-group ids. -/
theorem c4_witness :
    (List.replicate 20 0).length = 20 ∧ (100 : Nat) < 4294967296 ∧ (101 : Nat) < 4294967296 ∧
    (handleEvent (List.replicate 20 0 ++
        (encodeProcEventHeader { What := PROC_EVENT_FORK, Cpu := 0, Timestamp := 0 } ++
          (u32le 7 ++ (u32le 100 ++ (u32le 8 ++ u32le 101))))) = [ProcEvent.fork 100 101] ∧
     handleEvent (List.replicate 20 0 ++
        (encodeProcEventHeader { What := PROC_EVENT_EXEC, Cpu := 0, Timestamp := 0 } ++
          (u32le 9 ++ u32le 100))) = [ProcEvent.exec 100] ∧
     handleEvent (List.replicate 20 0 ++
        (encodeProcEventHeader { What := PROC_EVENT_EXIT, Cpu := 0, Timestamp := 0 } ++
          (u32le 9 ++ (u32le 100 ++ (u32le 0 ++ u32le 15))))) = [ProcEvent.exit 100]) :=
  ⟨by decide, by decide, by decide,
    c4_decode_reports_tgid (List.replicate 20 0) (by decide) 0 0 7 100 8 101 0 15
      (by decide) (by decide)⟩

/-- Claim C5: for each operation in {listen, ignore} and every sequence
number, the control frame built by `NetLink.send` decodes back through the
envelope and connector-header layers to the incremented sequence number,
the channel identifier pair `(Idx = 1, Val = 1)`, and the 4-byte operation
code. -/
theorem c5_send_roundtrip (st : NetLinkState) (pid op : Nat)
    (hop : op = PROC_CN_MCAST_LISTEN ∨ op = PROC_CN_MCAST_IGNORE) (hpid : pid < 4294967296) :
    parseNetlinkMessage (netlinkSend st pid op).2 =
      some [(sendHdr (netlinkSend st pid op).1.seq pid, encodeCnMsg sendCnMsg ++ u32le op)] ∧
    (binRead 20 cnMsgZero decodeCnMsg (encodeCnMsg sendCnMsg ++ u32le op)).1 = sendCnMsg ∧
    le32 (binRead 20 cnMsgZero decodeCnMsg (encodeCnMsg sendCnMsg ++ u32le op)).2 = op := by
  refine ⟨?_, ?_, ?_⟩
  · simp only [netlinkSend, sendFrame]
    rw [show encodeNlMsghdr (sendHdr ((st.seq + 1) % 4294967296) pid) ++
          (encodeCnMsg sendCnMsg ++ u32le op) =
        encodeNlMsghdr (sendHdr ((st.seq + 1) % 4294967296) pid) ++
          ((encodeCnMsg sendCnMsg ++ u32le op) ++ []) by rw [List.append_nil]]
    rw [parseNetlinkMessage_cons _ _ _ rfl (by show (40 : Nat) % 4 = 0; rfl)
      (decodeNlMsghdr_encode _ _ (by show (40 : Nat) < 4294967296; omega)
        (by show (3 : Nat) < 65536; omega) (by show (0 : Nat) < 65536; omega)
        (Nat.mod_lt _ (by omega)) hpid)]
    rfl
  · rw [binRead_exact (encodeCnMsg_length _)]
    dsimp only
    decide
  · rw [binRead_exact (encodeCnMsg_length _)]
    dsimp only
    rcases hop with rfl | rfl <;> decide

/-- Witness for claim C5, at `seq = 0`, `pid = 42`, `op = listen`. -/
theorem c5_witness :
    ((1 : Nat) = PROC_CN_MCAST_LISTEN ∨ (1 : Nat) = PROC_CN_MCAST_IGNORE) ∧ (42 : Nat) < 4294967296 ∧
    (parseNetlinkMessage (netlinkSend { sock := 3, seq := 0 } 42 1).2 =
        some [(sendHdr (netlinkSend { sock := 3, seq := 0 } 42 1).1.seq 42,
               encodeCnMsg sendCnMsg ++ u32le 1)] ∧
      (binRead 20 cnMsgZero decodeCnMsg (encodeCnMsg sendCnMsg ++ u32le 1)).1 = sendCnMsg ∧
      le32 (binRead 20 cnMsgZero decodeCnMsg (encodeCnMsg sendCnMsg ++ u32le 1)).2 = 1) :=
  ⟨Or.inl rfl, by decide, c5_send_roundtrip { sock := 3, seq := 0 } 42 1 (Or.inl rfl) (by decide)⟩

/-- Claim C6: errors during the capture loop's run are never fatal: a
transport failure of the receive puts a socket error on the error stream,
a frame shorter than the minimum envelope size puts a protocol error
(`syscall.EINVAL`) on the error stream and yields zero events, and in both
cases the loop proceeds to the next receive. -/
theorem c6_loop_errors_nonfatal :
    (∀ e : Nat, readEventsStep (RecvResult.recvError e) = ([LoopError.socketError e], [], true)) ∧
    ∀ frame : List Nat, frame.length < NLMSG_HDRLEN →
      readEventsStep (RecvResult.ok frame) = ([LoopError.protocolError], [], true) := by
  constructor
  · intro e
    rfl
  · intro frame h
    simp only [readEventsStep]
    rw [if_pos h]

/-- Witness for claim C6, at errno 9 (EBADF) and a 3-byte frame. -/
theorem c6_witness :
    readEventsStep (RecvResult.recvError 9) = ([LoopError.socketError 9], [], true) ∧
    readEventsStep (RecvResult.ok [0, 1, 2]) = ([LoopError.protocolError], [], true) :=
  ⟨c6_loop_errors_nonfatal.1 9, c6_loop_errors_nonfatal.2 [0, 1, 2] (by decide)⟩

/-- Claim C7: for every frame consisting of N consecutively encoded
well-formed events of mixed kinds, decode and dispatch yield exactly N
events, in exactly the order the events appear in the frame, each routed to
the output channel matching its kind (the `ProcEvent` constructor). -/
theorem c7_order_preserved (es : List WireEvent) (h : ∀ e ∈ es, e.wf) :
    readFrameEvents (es.map eventMsg).flatten = es.map WireEvent.toEvent := by
  unfold readFrameEvents
  rw [parse_eventMsgs]
  exact flattenDispatch es h

/-- Witness for claim C7: a three-event frame (fork, exec, exit) decodes to
the three events in order, routed by kind. -/
theorem c7_witness :
    readFrameEvents (([WireEvent.fork 7 100 8 101, WireEvent.exec 9 55,
          WireEvent.exit 10 55 0 9].map eventMsg).flatten) =
      [ProcEvent.fork 100 101, ProcEvent.exec 55, ProcEvent.exit 55] :=
  c7_order_preserved
    [WireEvent.fork 7 100 8 101, WireEvent.exec 9 55, WireEvent.exit 10 55 0 9] (by decide)

/-- Claim C8: a well-formed envelope and process-event header whose kind
value lies outside {fork, exec, exit} yields zero events and nothing on the
error stream: the message is silently dropped and the loop continues. -/
theorem c8_unknown_kind_dropped (cn : List Nat) (hcn : cn.length = 20) (what cpu ts : Nat)
    (body : List Nat) (hwhat : what < 4294967296) (h1 : what ≠ PROC_EVENT_FORK)
    (h2 : what ≠ PROC_EVENT_EXEC) (h3 : what ≠ PROC_EVENT_EXIT)
    (hb4 : body.length % 4 = 0) (hblen : body.length < 4294967000) :
    readEventsStep (RecvResult.ok
      (encodeNlMsghdr { Len := 52 + body.length, Typ := NLMSG_DONE, Flags := 0, Seq := 0, Pid := 0 } ++
        (cn ++ (encodeProcEventHeader { What := what, Cpu := cpu, Timestamp := ts } ++ body)))) =
      ([], [], true) := by
  have h1' : what % 4294967296 ≠ PROC_EVENT_FORK := by rw [Nat.mod_eq_of_lt hwhat]; exact h1
  have h2' : what % 4294967296 ≠ PROC_EVENT_EXEC := by rw [Nat.mod_eq_of_lt hwhat]; exact h2
  have h3' : what % 4294967296 ≠ PROC_EVENT_EXIT := by rw [Nat.mod_eq_of_lt hwhat]; exact h3
  have hpl : (cn ++ (encodeProcEventHeader { What := what, Cpu := cpu, Timestamp := ts } ++ body)).length
      = 36 + body.length := by
    simp only [List.length_append, encodeProcEventHeader_length, hcn]
    omega
  simp only [readEventsStep]
  rw [if_neg (by
    simp only [List.length_append, encodeNlMsghdr_length, encodeProcEventHeader_length, hcn]
    unfold NLMSG_HDRLEN
    omega)]
  suffices hrf : readFrameEvents
      (encodeNlMsghdr { Len := 52 + body.length, Typ := NLMSG_DONE, Flags := 0, Seq := 0, Pid := 0 } ++
        (cn ++ (encodeProcEventHeader { What := what, Cpu := cpu, Timestamp := ts } ++ body))) = [] by
    rw [hrf]
  unfold readFrameEvents
  rw [show cn ++ (encodeProcEventHeader { What := what, Cpu := cpu, Timestamp := ts } ++ body) =
      (cn ++ (encodeProcEventHeader { What := what, Cpu := cpu, Timestamp := ts } ++ body)) ++ []
    from (List.append_nil _).symm]
  rw [parseNetlinkMessage_cons _ _ _
    (by
      show 52 + body.length =
        NLMSG_HDRLEN + (cn ++ (encodeProcEventHeader { What := what, Cpu := cpu, Timestamp := ts } ++ body)).length
      rw [hpl]
      unfold NLMSG_HDRLEN
      omega)
    (by show (52 + body.length) % 4 = 0; omega)
    (decodeNlMsghdr_encode _ _ (by show 52 + body.length < 4294967296; omega)
      (by show (3 : Nat) < 65536; omega) (by show (0 : Nat) < 65536; omega)
      (by show (0 : Nat) < 4294967296; omega) (by show (0 : Nat) < 4294967296; omega))]
  rw [show parseNetlinkMessage ([] : List Nat) = some [] from rfl]
  simp [handleEvent_unknown cn hcn what cpu ts body h1' h2' h3']

/-- Witness for claim C8, at kind value 5 with an empty body. -/
theorem c8_witness :
    (List.replicate 20 0).length = 20 ∧ (5 : Nat) < 4294967296 ∧
    readEventsStep (RecvResult.ok
      (encodeNlMsghdr { Len := 52 + ([] : List Nat).length, Typ := NLMSG_DONE, Flags := 0, Seq := 0, Pid := 0 } ++
        (List.replicate 20 0 ++
          (encodeProcEventHeader { What := 5, Cpu := 0, Timestamp := 0 } ++ [])))) =
      ([], [], true) :=
  ⟨by decide, by decide,
    c8_unknown_kind_dropped (List.replicate 20 0) (by decide) 5 0 0 [] (by decide) (by decide)
      (by decide) (by decide) (by decide) (by decide)⟩

/-- Claim C9: the dispatch path performs no per-pid filtering: the events
produced by `handleEvent` do not depend on the engine state at all (in
particular not on the `watches` map), `Listen` leaves the `watches` map
empty, and neither `Close` nor the `isDone`/`finish` path ever changes it —
no operation populates it. -/
theorem c9_no_filtering :
    (∀ (p q : PsEventState) (data : List Nat), handleEventOn p data = handleEventOn q data) ∧
    listenPs.watches = [] ∧
    (∀ p : PsEventState, (closePs p).watches = p.watches) ∧
    (∀ p : PsEventState, ((isDonePs p).1).watches = p.watches) := by
  refine ⟨fun p q data => rfl, rfl, fun p => rfl, fun p => ?_⟩
  obtain ⟨w, db, a1, a2, a3, a4, a5⟩ := p
  cases db <;> rfl

/-- Claim C10: in every outbound control frame produced by `NetLink.send`,
the incremented sequence counter is written only into the envelope header's
sequence field — the connector header's sequence and acknowledgment fields
decode to zero — and the envelope's total-length field equals the number of
bytes actually sent, namely `NLMSG_HDRLEN + 20 + 4 = 40`. -/
theorem c10_send_frame_fields (st : NetLinkState) (pid op : Nat) (hpid : pid < 4294967296) :
    ((netlinkSend st pid op).2).length = 40 ∧
    (decodeNlMsghdr (netlinkSend st pid op).2).Len = ((netlinkSend st pid op).2).length ∧
    ((netlinkSend st pid op).2).length = NLMSG_HDRLEN + (20 + 4) ∧
    (decodeNlMsghdr (netlinkSend st pid op).2).Seq = (netlinkSend st pid op).1.seq ∧
    (decodeCnMsg ((((netlinkSend st pid op).2).drop 16).take 20)).Seq = 0 ∧
    (decodeCnMsg ((((netlinkSend st pid op).2).drop 16).take 20)).Ack = 0 := by
  have hdec : decodeNlMsghdr (netlinkSend st pid op).2 =
      sendHdr ((st.seq + 1) % 4294967296) pid := by
    simp only [netlinkSend, sendFrame]
    exact decodeNlMsghdr_encode _ _ (by show (40 : Nat) < 4294967296; omega)
      (by show (3 : Nat) < 65536; omega) (by show (0 : Nat) < 65536; omega)
      (Nat.mod_lt _ (by omega)) hpid
  have hcn20 : (((netlinkSend st pid op).2).drop 16).take 20 = encodeCnMsg sendCnMsg := by
    simp only [netlinkSend, sendFrame]
    rw [List.drop_left' (encodeNlMsghdr_length _), List.take_left' (encodeCnMsg_length _)]
  refine ⟨rfl, ?_, rfl, ?_, ?_, ?_⟩
  · rw [hdec]
    rfl
  · rw [hdec]
    rfl
  · rw [hcn20]
    decide
  · rw [hcn20]
    decide

/-- Witness for claim C10, at `seq = 7`, `pid = 42`, `op = ignore`. -/
theorem c10_witness :
    (42 : Nat) < 4294967296 ∧
    (((netlinkSend { sock := 3, seq := 7 } 42 2).2).length = 40 ∧
     (decodeNlMsghdr (netlinkSend { sock := 3, seq := 7 } 42 2).2).Len =
       ((netlinkSend { sock := 3, seq := 7 } 42 2).2).length ∧
     ((netlinkSend { sock := 3, seq := 7 } 42 2).2).length = NLMSG_HDRLEN + (20 + 4) ∧
     (decodeNlMsghdr (netlinkSend { sock := 3, seq := 7 } 42 2).2).Seq =
       (netlinkSend { sock := 3, seq := 7 } 42 2).1.seq ∧
     (decodeCnMsg ((((netlinkSend { sock := 3, seq := 7 } 42 2).2).drop 16).take 20)).Seq = 0 ∧
     (decodeCnMsg ((((netlinkSend { sock := 3, seq := 7 } 42 2).2).drop 16).take 20)).Ack = 0) :=
  ⟨by decide, c10_send_frame_fields { sock := 3, seq := 7 } 42 2 (by decide)⟩

end Psevent
